import Mathlib

/-!
Verification of the ramenbooth terminal dashboard.

The repository has two variants of the same program: `src/main.go` (an earlier
version without the DRPC inventory) and `src/unnamed/part_000` (the full
version described by the spec: three clusters, DRPC listing on the hub).  The
embedding below follows `src/unnamed/part_000`; where `src/main.go` differs it
is noted in the doc comments.

Modelling conventions:
- Remote calls (node listing, namespace listing, DRPC listing) are opaque
  collaborators; a `RemoteResp` record describes the behaviour of the remote
  for one poll attempt of one cluster: whether the client factory succeeds
  (`fetchClusterClient` returning non-nil) and what each listing returns
  (`none` = the call returns an error).
- In Go, calling a method on a nil `client.Client` interface panics.  Fallible
  steps are therefore embedded as `Except Unit` values where `.error ()` is
  the nil-interface panic; `updateClusterData` returns
  `Except clusterInfo clusterInfo` where `.error c` is the in-place state of
  the cluster record at the moment of the panic (its writes before the panic
  have already happened) and `.ok c` the state returned on normal completion.
- `lipgloss` (borders, joins) is an opaque layout library, passed to the
  renderer as a `LayoutLib` record of abstract functions.
- Go `int` is `Int`; nil string slices are `[]`.
-/

namespace Ramenbooth

/-- Go `type clusterInfo struct` (src/unnamed/part_000 lines 37-45): one
monitored cluster with its identity (name, kubeconfig path in `context`, role
flags `hub`/`managedcluster`) and its mutable status fields (`status`,
`namespaces`, `DRPCs`). -/
structure clusterInfo where
  name : String
  status : String
  context : String
  namespaces : List String
  DRPCs : List String
  hub : Bool
  managedcluster : Bool
deriving Repr, DecidableEq

/-- Go `newClusterInfo` (part_000 lines 47-55): status starts "Unknown";
`namespaces` and `DRPCs` are left as nil slices (embedded as `[]`). -/
def newClusterInfo (name context : String) (hub managedcluster : Bool) : clusterInfo :=
  { name := name, status := "Unknown", context := context,
    namespaces := [], DRPCs := [], hub := hub, managedcluster := managedcluster }

/-- One item of a `corev1.NamespaceList` as far as the program reads it: only
`.Name` is consulted. -/
structure Namespace where
  name : String
deriving Repr, DecidableEq

/-- One item of a `ramen.DRPlacementControlList` as far as the program reads
it: only `.Name` is consulted. -/
structure DRPC where
  name : String
deriving Repr, DecidableEq

/-- Behaviour of the remote side for one poll attempt of one cluster:
`clientOk` is whether `fetchClusterClient` returns a non-nil client (part_000
lines 88-100: nil on kubeconfig or client-construction error); `nodesOk` is
whether the node listing succeeds; `nsList`/`drpcList` are the listings'
items, `none` meaning the call returns an error. -/
structure RemoteResp where
  clientOk : Bool
  nodesOk : Bool
  nsList : Option (List Namespace)
  drpcList : Option (List DRPC)
deriving Repr, DecidableEq

/-- Body of the loop in Go `filterRamenNamespaces` (part_000 lines 123-135):
append `ns.Name` when it equals one of the five hard-coded names.  (The
`src/main.go` variant, lines 102-113, has the same loop without the
"openshift-dr-ops" disjunct.) -/
def ramenFilterStep (filtered : List String) (ns : Namespace) : List String :=
  if ns.name = "ramen-system" ∨ ns.name = "ramen-ops" ∨ ns.name = "openshift-operators" ∨
     ns.name = "openshift-dr-system" ∨ ns.name = "openshift-dr-ops"
  then filtered ++ [ns.name] else filtered

/-- Go `filterRamenNamespaces` (part_000 lines 123-135): a forward loop over
the items appending matching names to an initially empty slice. -/
def filterRamenNamespaces (namespaces : List Namespace) : List String :=
  namespaces.foldl ramenFilterStep []

/-- The fixed allow-set of namespace names, as a set (spec section 4.2 step 3
speaks of "a fixed allow-set of namespace names (exact string match)").  Used
on the specification side of claim C5. -/
def ramenAllowSet : List String :=
  ["ramen-system", "ramen-ops", "openshift-operators", "openshift-dr-system", "openshift-dr-ops"]

/-- Go `getClusterStatus` (part_000 lines 171-179): list nodes; on error
report "Error", otherwise "Healthy".  `kclientOk = false` models the nil
client interface, on which the `List` call panics (`.error ()`). -/
def getClusterStatus (kclientOk : Bool) (r : RemoteResp) : Except Unit String :=
  if kclientOk then .ok (if r.nodesOk then "Healthy" else "Error") else .error ()

/-- Go `getNamespaces` (part_000 lines 137-145): list namespaces; on a call
error return an empty `NamespaceList`.  On a nil client the call panics. -/
def getNamespaces (kclientOk : Bool) (r : RemoteResp) : Except Unit (List Namespace) :=
  if kclientOk then .ok (match r.nsList with | some items => items | none => []) else .error ()

/-- Go `getRamenNamespaces` (part_000 lines 147-150): the namespace listing
piped through `filterRamenNamespaces`. -/
def getRamenNamespaces (kclientOk : Bool) (r : RemoteResp) : Except Unit (List String) :=
  match getNamespaces kclientOk r with
  | .error e => .error e
  | .ok ns => .ok (filterRamenNamespaces ns)

/-- Go `getDRPCs` (part_000 lines 152-169): non-hub clusters return an empty
slice before touching the client; on the hub, list DRPCs (error gives an
empty slice; a nil client panics) and collect the item names in listing
order by appending in a forward loop. -/
def getDRPCs (c : clusterInfo) (kclientOk : Bool) (r : RemoteResp) : Except Unit (List String) :=
  if c.hub = false then .ok []
  else if kclientOk = false then .error ()
  else
    match r.drpcList with
    | none => .ok []
    | some items => .ok (items.foldl (fun acc d => acc ++ [d.name]) [])

/-- Go `updateClusterData` (part_000 lines 102-112), statement by statement.
Note the source's nil-client branch sets `status`/`namespaces` but has no
`return`: execution falls through to `getClusterStatus` on the nil client,
which panics (`.error` carries the cluster record as already mutated at that
point).  `src/main.go` lines 82-91 have exactly the same shape (without the
DRPC statement). -/
def updateClusterData (r : RemoteResp) (c : clusterInfo) : Except clusterInfo clusterInfo :=
  let kclientOk := r.clientOk
  let c0 := if kclientOk then c else { c with status := "Error", namespaces := [] }
  match getClusterStatus kclientOk r with
  | .error _ => .error c0
  | .ok st =>
    let c1 := { c0 with status := st }
    match getRamenNamespaces kclientOk r with
    | .error _ => .error c1
    | .ok nss =>
      let c2 := { c1 with namespaces := nss }
      match getDRPCs c2 kclientOk r with
      | .error _ => .error c2
      | .ok ds => .ok { c2 with DRPCs := ds }

/-- The DRPC names a successful hub listing yields (the loop of part_000
lines 163-166). -/
def drpcNames (r : RemoteResp) : List String :=
  match r.drpcList with
  | none => []
  | some items => items.foldl (fun acc d => acc ++ [d.name]) []

/-- The outcome of one completed (non-panicking) poll attempt on a cluster:
all three status fields are overwritten from this attempt's remote responses;
the identity fields are kept.  Proved below to be what `updateClusterData`
returns whenever the client factory succeeds. -/
def pollOutcome (r : RemoteResp) (c : clusterInfo) : clusterInfo :=
  { c with
    status := if r.nodesOk then "Healthy" else "Error",
    namespaces := filterRamenNamespaces (match r.nsList with | some items => items | none => []),
    DRPCs := if c.hub then drpcNames r else [] }

/-- Go `updateClustersData`'s command body (part_000 lines 114-121): poll each
cluster in index order, mutating the shared slice in place.  `env i` is the
remote behaviour seen by the poll of cluster `i` in this attempt.  A panic
aborts the loop: `.error` carries the slice at that moment (earlier clusters
updated, the panicking one partially written, later ones untouched); `.ok`
carries the fully updated slice, after which the Go closure returns the
message `clusters` — a `*[]clusterInfo`. -/
def updateClustersData (env : Nat → RemoteResp) : List clusterInfo → Except (List clusterInfo) (List clusterInfo)
  | [] => .ok []
  | c :: rest =>
    match updateClusterData (env 0) c with
    | .error cbad => .error (cbad :: rest)
    | .ok cnew =>
      match updateClustersData (fun i => env (i + 1)) rest with
      | .ok restNew => .ok (cnew :: restNew)
      | .error restBad => .error (cnew :: restBad)

/-- Pointwise description of a completed batch: every cluster replaced by this
attempt's `pollOutcome`. -/
def pollMapFrom (env : Nat → RemoteResp) : List clusterInfo → List clusterInfo
  | [] => []
  | c :: rest => pollOutcome (env 0) c :: pollMapFrom (fun i => env (i + 1)) rest

/-- The side-effecting commands the state machine can emit (`tea.Cmd` values
produced in part_000): start a poll batch (`updateClustersData(&m.clusters)`),
schedule the next tick (`tickCmd()`), or stop the program (`tea.Quit`). -/
inductive Cmd where
  | updateClustersDataCmd
  | tickCmd
  | quit
deriving Repr, DecidableEq

/-- The dynamic types `model.Update` (part_000 lines 181-209) can receive as
`tea.Msg`, as distinguished by its type switch plus the message the program's
own commands actually produce:
- `clustersValue cs`: a value of dynamic type `[]clusterInfo` (the switch's
  first case);
- `windowSize w h`: a `tea.WindowSizeMsg`;
- `key s`: a `tea.KeyMsg` whose `String()` is `s`;
- `tick`: a `time.Time` (what `tickCmd` delivers);
- `clustersPtr`: a value of dynamic type `*[]clusterInfo` — this is what the
  `updateClustersData` command returns (`return clusters` at part_000 line
  119, where `clusters` is the `*[]clusterInfo` parameter).  A Go type switch
  matches on the exact dynamic type, so this value does NOT match the
  `case []clusterInfo` arm and falls through to the default (no case). -/
inductive Msg where
  | clustersValue (cs : List clusterInfo)
  | windowSize (w h : Int)
  | key (s : String)
  | tick
  | clustersPtr
deriving Repr, DecidableEq

/-- Go `type model struct` (part_000 lines 57-63).  The `ticker *time.Ticker`
field is never assigned or read anywhere in the source and is omitted. -/
structure model where
  clusters : List clusterInfo
  cursor : Int
  width : Int
  height : Int
deriving Repr, DecidableEq

/-- Go `initialModel` (part_000 lines 65-76): the three registered targets
built from the `-hub`, `-dr1`, `-dr2` flag values; all other fields are Go
zero values. -/
def initialModel (hubArg dr1Arg dr2Arg : String) : model :=
  { clusters := [newClusterInfo "Hub" hubArg true false,
                 newClusterInfo "DR1" dr1Arg false true,
                 newClusterInfo "DR2" dr2Arg false true],
    cursor := 0, width := 0, height := 0 }

/-- Go `model.Update` (part_000 lines 181-209), case by case.  The command
component is the list of commands emitted (`nil` = `[]`, `tea.Batch(a, b)` =
`[a, b]`). -/
def model.update (m : model) (msg : Msg) : model × List Cmd :=
  match msg with
  | .clustersValue cs => ({ m with clusters := cs }, [])
  | .windowSize w h => ({ m with width := w, height := h }, [])
  | .key s =>
    if s = "ctrl+c" ∨ s = "q" then (m, [Cmd.quit])
    else if s = "up" ∨ s = "k" then
      (if 0 < m.cursor then { m with cursor := m.cursor - 1 } else m, [])
    else if s = "down" ∨ s = "j" then
      (if m.cursor < (m.clusters.length : Int) - 1 then { m with cursor := m.cursor + 1 } else m, [])
    else (m, [])
  | .tick => (m, [Cmd.updateClustersDataCmd, Cmd.tickCmd])
  | .clustersPtr => (m, [])

/-- The message value the background poll command delivers: `return clusters`
at part_000 line 119, of dynamic type `*[]clusterInfo`. -/
def updateClustersDataMsg : Msg := Msg.clustersPtr

/-- Process a sequence of events through `model.update`, keeping the state. -/
def runEvents (m : model) (evs : List Msg) : model :=
  evs.foldl (fun acc e => (model.update acc e).1) m

/-- The concatenated command trace emitted while processing a sequence of
events. -/
def cmdTrace (m : model) : List Msg → List Cmd
  | [] => []
  | e :: rest => (model.update m e).2 ++ cmdTrace (model.update m e).1 rest

/-- Messages the running program's event sources can actually deliver:
keyboard keys, window resizes, the `time.Time` tick, and the `*[]clusterInfo`
batch-completion message.  No command or input source in the program ever
produces a bare `[]clusterInfo` value. -/
def isSystemMsg : Msg → Bool
  | .clustersValue _ => false
  | _ => true

/-- Recognises a `tea.WindowSizeMsg`. -/
def isResizeMsg : Msg → Bool
  | .windowSize _ _ => true
  | _ => false

/-- The layout library (`lipgloss`) as an opaque collaborator: `renderBox`
models `NewStyle().Border(NormalBorder(), true).Width(w).Height(h).`
`Align(Left).SetString(parts...).Render()`; the joins model
`JoinVertical(Top, ...)` and `JoinHorizontal(Left, ...)`. -/
structure LayoutLib where
  renderBox : Int → Int → List String → String
  joinVertical : List String → String
  joinHorizontal : List String → String

/-- How Go `fmt.Sprintf("%s", s)` prints a `[]string`: space-separated inside
brackets (used by `getManagedClusterStyle`, part_000 line 232). -/
def goStringSliceFmt (items : List String) : String :=
  "[" ++ String.intercalate " " items ++ "]"

/-- Go `getHubStyle` (part_000 lines 211-226): name, status, comma-joined
namespaces, comma-joined DRPCs, boxed by the layout library. -/
def getHubStyle (lib : LayoutLib) (cluster : clusterInfo) (width height : Int) : String :=
  lib.renderBox width height
    [cluster.name ++ "\n\n",
     "Status: " ++ cluster.status ++ "\n",
     "Namespaces: " ++ String.intercalate "," cluster.namespaces ++ "\n",
     "DRPCs: " ++ String.intercalate "," cluster.DRPCs ++ "\n"]

/-- Go `getManagedClusterStyle` (part_000 lines 228-241): name, status, and
the namespace slice printed with `%s` (no DRPC line). -/
def getManagedClusterStyle (lib : LayoutLib) (cluster : clusterInfo) (width height : Int) : String :=
  lib.renderBox width height
    [cluster.name ++ "\n\n",
     "Status: " ++ cluster.status ++ "\n",
     "Namespaces: " ++ goStringSliceFmt cluster.namespaces ++ "\n"]

/-- Go `model.View` (part_000 lines 243-263): hub box over two side-by-side
managed-cluster boxes, plus the static footer.  Indexing `m.clusters[0..2]`
panics when fewer than three clusters exist, hence the `Option`.  Go integer
division truncates toward zero, which is `Int.tdiv`. -/
def model.view (lib : LayoutLib) (m : model) : Option String :=
  match m.clusters with
  | c0 :: c1 :: c2 :: _ =>
    some (lib.joinVertical
            [getHubStyle lib c0 m.width (Int.tdiv m.height 3),
             lib.joinHorizontal
               [getManagedClusterStyle lib c1 (Int.tdiv m.width 2) (Int.tdiv m.height 2),
                getManagedClusterStyle lib c2 (Int.tdiv m.width 2) (Int.tdiv m.height 2)]]
          ++ "\n\nPress q to quit.\n")
  | _ => none

/-- Sample hub target, used by concrete witnesses. -/
def sampleHub : clusterInfo := newClusterInfo "Hub" "hub-kubeconfig" true false

/-- Sample secondary target, used by concrete witnesses. -/
def sampleDR1 : clusterInfo := newClusterInfo "DR1" "dr1-kubeconfig" false true

/-- Remote behaviour where client construction fails (`fetchClusterClient`
returns nil), e.g. an unreadable kubeconfig path. -/
def respNoClient : RemoteResp := { clientOk := false, nodesOk := false, nsList := none, drpcList := none }

/-- Remote behaviour where the client is built but the health probe (node
listing) fails, while the other listings would succeed. -/
def respProbeFail : RemoteResp :=
  { clientOk := true, nodesOk := false,
    nsList := some [{ name := "ramen-system" }], drpcList := some [{ name := "drpc-a" }] }

/-- Fully healthy remote behaviour. -/
def respHealthy : RemoteResp :=
  { clientOk := true, nodesOk := true,
    nsList := some [{ name := "default" }, { name := "ramen-system" }],
    drpcList := some [{ name := "drpc-a" }] }

/-- A poll-attempt environment where every cluster sees `respHealthy`. -/
def sampleEnv : Nat → RemoteResp := fun _ => respHealthy

/-- The batch the `sampleEnv` attempt produces from the initial registry
built with kubeconfig paths "h", "d1", "d2". -/
def sampleBatch : List clusterInfo :=
  [{ name := "Hub", status := "Healthy", context := "h",
     namespaces := ["ramen-system"], DRPCs := ["drpc-a"], hub := true, managedcluster := false },
   { name := "DR1", status := "Healthy", context := "d1",
     namespaces := ["ramen-system"], DRPCs := [], hub := false, managedcluster := true },
   { name := "DR2", status := "Healthy", context := "d2",
     namespaces := ["ramen-system"], DRPCs := [], hub := false, managedcluster := true }]

/-- A concrete layout library for witnesses. -/
def libSample : LayoutLib :=
  { renderBox := fun _ _ parts => String.intercalate "" parts,
    joinVertical := String.intercalate "\n",
    joinHorizontal := String.intercalate " " }

/-- Membership in the allow-set unfolded to the five equalities the Go
condition tests. -/
theorem mem_ramenAllowSet_iff (n : String) :
    n ∈ ramenAllowSet ↔
      (n = "ramen-system" ∨ n = "ramen-ops" ∨ n = "openshift-operators" ∨
       n = "openshift-dr-system" ∨ n = "openshift-dr-ops") := by
  simp [ramenAllowSet]

/-- The filtering loop, generalised over the accumulator: it appends exactly
the allow-set names of the input, in input order. -/
theorem foldl_ramenFilterStep (items : List Namespace) :
    ∀ acc : List String,
      items.foldl ramenFilterStep acc =
        acc ++ (items.filter fun ns => decide (ns.name ∈ ramenAllowSet)).map Namespace.name := by
  induction items with
  | nil => intro acc; simp
  | cons ns rest ih =>
    intro acc
    by_cases h : ns.name ∈ ramenAllowSet
    · have hs : ramenFilterStep acc ns = acc ++ [ns.name] := by
        unfold ramenFilterStep
        rw [if_pos ((mem_ramenAllowSet_iff ns.name).mp h)]
      simp [List.foldl_cons, hs, List.filter_cons, h, ih, List.append_assoc]
    · have hs : ramenFilterStep acc ns = acc := by
        unfold ramenFilterStep
        rw [if_neg (fun hc => h ((mem_ramenAllowSet_iff ns.name).mpr hc))]
      simp [List.foldl_cons, hs, List.filter_cons, h, ih]

/-- Name collection by appending in a forward loop is `List.map`. -/
theorem foldl_append_name (items : List DRPC) :
    ∀ acc : List String,
      items.foldl (fun acc d => acc ++ [d.name]) acc = acc ++ items.map DRPC.name := by
  induction items with
  | nil => intro acc; simp
  | cons d rest ih => intro acc; simp [List.foldl_cons, ih, List.append_assoc]

/-- Claim C5: for every namespace list returned by the remote, the poll's
namespace field is exactly the subsequence of names matching the fixed
allow-set by exact string equality, in the remote listing's order: the Go
loop equals filter-then-project, and the result is a sublist (order-preserving
subsequence) of the listed names. -/
theorem namespace_filter_exact (items : List Namespace) :
    filterRamenNamespaces items =
      (items.filter fun ns => decide (ns.name ∈ ramenAllowSet)).map Namespace.name
    ∧ (filterRamenNamespaces items).Sublist (items.map Namespace.name) := by
  have h := foldl_ramenFilterStep items []
  constructor
  · simpa [filterRamenNamespaces] using h
  · have he : filterRamenNamespaces items =
        (items.filter fun ns => decide (ns.name ∈ ramenAllowSet)).map Namespace.name := by
      simpa [filterRamenNamespaces] using h
    rw [he]
    exact (List.filter_sublist items).map Namespace.name

/-- Claim C4: `getDRPCs` gives a secondary (non-hub) target an empty
resource-reference list no matter what the remote would return (the role test
comes before any remote call), and gives the hub, when its listing succeeds,
exactly the listed names in listing order. -/
theorem drpc_role_policy (c : clusterInfo) (kclientOk : Bool) (r : RemoteResp) :
    (c.hub = false → getDRPCs c kclientOk r = .ok [])
    ∧ (∀ items, c.hub = true → r.drpcList = some items →
        getDRPCs c true r = .ok (items.map DRPC.name)) := by
  constructor
  · intro h
    unfold getDRPCs
    rw [if_pos h]
  · intro items hhub hd
    unfold getDRPCs
    rw [hhub, hd]
    simp [foldl_append_name]

/-- Witness for claim C4: a secondary target gets `[]` even with a populated
remote, the hub gets the listed names. -/
theorem drpc_role_policy_witness :
    getDRPCs sampleDR1 false respHealthy = .ok []
    ∧ getDRPCs sampleHub true respHealthy = .ok ["drpc-a"] := by
  refine ⟨(drpc_role_policy sampleDR1 false respHealthy).1 rfl, ?_⟩
  have h := (drpc_role_policy sampleHub true respHealthy).2 [{ name := "drpc-a" }] rfl rfl
  simpa using h

/-- Claim C2 (evidence for the code bug): when the client factory fails, the
poll does not return `TargetStatus{Error, [], []}` — the nil-client branch
lacks a `return`, so the code falls through and calls `getClusterStatus` on
the nil client, which panics.  The `.error` value is the cluster state at the
panic: status and namespaces already overwritten, DRPCs untouched. -/
theorem client_failure_poll_panics :
    updateClusterData respNoClient sampleDR1 =
      .error { sampleDR1 with status := "Error", namespaces := [] }
    ∧ ∀ out, updateClusterData respNoClient sampleDR1 ≠ Except.ok out := by
  constructor
  · rfl
  · intro out h
    simp [updateClusterData, getClusterStatus, respNoClient] at h

/-- Claim C3 counterexample: client construction succeeds, the health probe
fails, yet the namespace and DRPC listings are still attempted and their
results populate the returned status — the fields do not stay empty, so the
claimed short-circuit does not happen. -/
theorem probe_failure_no_shortcircuit_cex :
    updateClusterData respProbeFail sampleHub =
      .ok { sampleHub with
              status := "Error",
              namespaces := ["ramen-system"],
              DRPCs := ["drpc-a"] }
    ∧ (["ramen-system"] : List String) ≠ []
    ∧ (["drpc-a"] : List String) ≠ [] := by
  refine ⟨rfl, by simp, by simp⟩

/-- When the client factory succeeds, `updateClusterData` completes normally
and returns exactly this attempt's `pollOutcome`. -/
theorem updateClusterData_ok (r : RemoteResp) (c : clusterInfo) (h : r.clientOk = true) :
    updateClusterData r c = .ok (pollOutcome r c) := by
  cases hh : c.hub <;> cases hd : r.drpcList <;>
    simp [updateClusterData, getClusterStatus, getRamenNamespaces, getNamespaces, getDRPCs,
          pollOutcome, drpcNames, h, hh, hd]

/-- When the client factory fails, `updateClusterData` panics; the state at
the panic has status "Error" and empty namespaces from the dead-end branch,
and the DRPCs field still holding its previous value. -/
theorem updateClusterData_clientFail (r : RemoteResp) (c : clusterInfo) (h : r.clientOk = false) :
    updateClusterData r c = .error { c with status := "Error", namespaces := [] } := by
  simp [updateClusterData, getClusterStatus, h]

/-- Claim C3 amended: on a failed health probe the poll sets health to Error
but does not short-circuit — the namespace and resource listings are still
attempted best-effort, and the returned fields hold their (filtered)
results. -/
theorem probe_failure_best_effort (r : RemoteResp) (c : clusterInfo)
    (hclient : r.clientOk = true) (hprobe : r.nodesOk = false) :
    updateClusterData r c =
      .ok { c with
              status := "Error",
              namespaces := filterRamenNamespaces
                (match r.nsList with | some items => items | none => []),
              DRPCs := if c.hub then drpcNames r else [] } := by
  have h := updateClusterData_ok r c hclient
  rw [h]
  simp [pollOutcome, hprobe]

/-- Witness for the amended claim C3 at a concrete input. -/
theorem probe_failure_best_effort_witness :
    updateClusterData respProbeFail sampleDR1 =
      .ok { sampleDR1 with status := "Error", namespaces := ["ramen-system"], DRPCs := [] } := by
  have h := probe_failure_best_effort respProbeFail sampleDR1 rfl rfl
  simpa [respProbeFail, sampleDR1, filterRamenNamespaces, ramenFilterStep] using h

/-- Inversion: a normally completed poll of one cluster means the client
factory succeeded and the result is this attempt's `pollOutcome`. -/
theorem updateClusterData_ok_inv (r : RemoteResp) (c d : clusterInfo)
    (h : updateClusterData r c = .ok d) : r.clientOk = true ∧ d = pollOutcome r c := by
  cases hr : r.clientOk with
  | false =>
    rw [updateClusterData_clientFail r c hr] at h
    exact absurd h (by simp)
  | true =>
    rw [updateClusterData_ok r c hr] at h
    refine ⟨rfl, ?_⟩
    injection h with h2
    exact h2.symm

/-- A batch that completes (and therefore delivers its message) equals the
pointwise `pollOutcome` map of this attempt. -/
theorem updateClustersData_ok_eq (cs : List clusterInfo) :
    ∀ (env : Nat → RemoteResp) (ds : List clusterInfo),
      updateClustersData env cs = .ok ds → ds = pollMapFrom env cs := by
  induction cs with
  | nil =>
    intro env ds h
    simp only [updateClustersData] at h
    injection h with h2
    rw [← h2, pollMapFrom]
  | cons c rest ih =>
    intro env ds h
    unfold updateClustersData at h
    cases h1 : updateClusterData (env 0) c with
    | error cbad => rw [h1] at h; exact absurd h (by simp)
    | ok cnew =>
      rw [h1] at h
      cases h2 : updateClustersData (fun i => env (i + 1)) rest with
      | error restBad => rw [h2] at h; exact absurd h (by simp)
      | ok restNew =>
        rw [h2] at h
        simp only [] at h
        injection h with h3
        have hcnew := (updateClusterData_ok_inv (env 0) c cnew h1).2
        have hrest := ih (fun i => env (i + 1)) restNew h2
        rw [← h3, hcnew, hrest, pollMapFrom]

/-- The pointwise batch map preserves the number of targets. -/
theorem pollMapFrom_length (cs : List clusterInfo) :
    ∀ env : Nat → RemoteResp, (pollMapFrom env cs).length = cs.length := by
  induction cs with
  | nil => intro env; rfl
  | cons c rest ih => intro env; simp [pollMapFrom, ih]

/-- Entry `i` of the pointwise batch map is `pollOutcome` of attempt response
`env i` applied to the old entry `i`. -/
theorem pollMapFrom_get (cs : List clusterInfo) :
    ∀ (env : Nat → RemoteResp) (i : Nat) (hi : i < cs.length)
      (hi2 : i < (pollMapFrom env cs).length),
      (pollMapFrom env cs).get ⟨i, hi2⟩ = pollOutcome (env i) (cs.get ⟨i, hi⟩) := by
  induction cs with
  | nil => intro env i hi _; exact absurd hi (by simp)
  | cons c rest ih =>
    intro env i hi hi2
    cases i with
    | zero => rfl
    | succ j =>
      have hj : j < rest.length := by simpa using hi
      have hj2 : j < (pollMapFrom (fun k => env (k + 1)) rest).length := by
        rw [pollMapFrom_length]; exact hj
      simpa [pollMapFrom] using ih (fun k => env (k + 1)) j hj hj2

/-- Claim C1: when a poll batch completes and its completion message is
processed by `model.Update`, every target's status record is wholesale this
attempt's `pollOutcome` — each of the three fields comes from the same single
attempt (`env`).  The last conjunct is the no-cross-attempt-mixing guarantee:
the delivered outcome of a poll does not depend on the status fields left by
any previous attempt, only on the target's identity and this attempt's remote
responses.  (If the attempt panics instead — see claim C2 — no completion
message is delivered at all, so no `BatchArrived` event occurs.) -/
theorem batch_wholesale_single_generation (m : model) (env : Nat → RemoteResp)
    (cs : List clusterInfo) (h : updateClustersData env m.clusters = .ok cs) :
    ((model.update { m with clusters := cs } updateClustersDataMsg).1.clusters = cs)
    ∧ cs = pollMapFrom env m.clusters
    ∧ (∀ (i : Nat) (hi : i < m.clusters.length) (hi2 : i < cs.length),
        cs.get ⟨i, hi2⟩ = pollOutcome (env i) (m.clusters.get ⟨i, hi⟩))
    ∧ (∀ (r : RemoteResp) (a b d e : clusterInfo),
        a.hub = b.hub →
        updateClusterData r a = .ok d → updateClusterData r b = .ok e →
        d.status = e.status ∧ d.namespaces = e.namespaces ∧ d.DRPCs = e.DRPCs) := by
  have hmap := updateClustersData_ok_eq m.clusters env cs h
  subst hmap
  refine ⟨rfl, rfl, ?_, ?_⟩
  · intro i hi hi2
    exact pollMapFrom_get m.clusters env i hi hi2
  · intro r a b d e hhub hda hdb
    have ha := (updateClusterData_ok_inv r a d hda).2
    have hb := (updateClusterData_ok_inv r b e hdb).2
    rw [ha, hb]
    simp [pollOutcome, hhub]

/-- Witness for claim C1: the concrete healthy attempt on the initial
registry completes with `sampleBatch`, and after the completion message is
processed the displayed clusters are exactly that batch. -/
theorem batch_wholesale_single_generation_witness :
    updateClustersData sampleEnv (initialModel "h" "d1" "d2").clusters = Except.ok sampleBatch
    ∧ ((model.update { initialModel "h" "d1" "d2" with clusters := sampleBatch }
          updateClustersDataMsg).1.clusters = sampleBatch) := by
  have h0 : updateClustersData sampleEnv (initialModel "h" "d1" "d2").clusters =
      Except.ok sampleBatch := by rfl
  exact ⟨h0, (batch_wholesale_single_generation (initialModel "h" "d1" "d2")
    sampleEnv sampleBatch h0).1⟩

/-- One step of `model.Update` on any message the running program can deliver
preserves the registry length and the cursor bounds. -/
theorem update_preserves_inv (m : model) (e : Msg) (he : isSystemMsg e = true)
    (h1 : m.clusters.length = 3) (h2 : 0 ≤ m.cursor) (h3 : m.cursor ≤ 2) :
    (model.update m e).1.clusters.length = 3
    ∧ 0 ≤ (model.update m e).1.cursor ∧ (model.update m e).1.cursor ≤ 2 := by
  cases e with
  | clustersValue cs => simp [isSystemMsg] at he
  | windowSize w h => exact ⟨h1, h2, h3⟩
  | tick => exact ⟨h1, h2, h3⟩
  | clustersPtr => exact ⟨h1, h2, h3⟩
  | key s =>
    unfold model.update
    by_cases hq : s = "ctrl+c" ∨ s = "q"
    · simp only [if_pos hq]
      exact ⟨h1, h2, h3⟩
    · by_cases hu : s = "up" ∨ s = "k"
      · simp only [if_neg hq, if_pos hu]
        by_cases hc : 0 < m.cursor
        · simp only [if_pos hc]
          refine ⟨h1, ?_, ?_⟩
          · show 0 ≤ m.cursor - 1
            omega
          · show m.cursor - 1 ≤ 2
            omega
        · simp only [if_neg hc]
          exact ⟨h1, h2, h3⟩
      · by_cases hd : s = "down" ∨ s = "j"
        · simp only [if_neg hq, if_neg hu, if_pos hd]
          by_cases hc : m.cursor < (m.clusters.length : Int) - 1
          · simp only [if_pos hc]
            rw [h1] at hc
            refine ⟨h1, ?_, ?_⟩
            · show 0 ≤ m.cursor + 1
              omega
            · show m.cursor + 1 ≤ 2
              omega
          · simp only [if_neg hc]
            exact ⟨h1, h2, h3⟩
        · simp only [if_neg hq, if_neg hu, if_neg hd]
          exact ⟨h1, h2, h3⟩

/-- The invariant of `update_preserves_inv`, folded over any sequence of
deliverable events. -/
theorem runEvents_inv (evs : List Msg) :
    ∀ m : model, (∀ e ∈ evs, isSystemMsg e = true) →
      m.clusters.length = 3 → 0 ≤ m.cursor → m.cursor ≤ 2 →
      (runEvents m evs).clusters.length = 3
      ∧ 0 ≤ (runEvents m evs).cursor ∧ (runEvents m evs).cursor ≤ 2 := by
  induction evs with
  | nil => intro m _ h1 h2 h3; exact ⟨h1, h2, h3⟩
  | cons e rest ih =>
    intro m hall h1 h2 h3
    have he : isSystemMsg e = true := hall e (List.mem_cons_self e rest)
    have hstep := update_preserves_inv m e he h1 h2 h3
    have hrest : ∀ x ∈ rest, isSystemMsg x = true :=
      fun x hx => hall x (List.mem_cons_of_mem e hx)
    have := ih (model.update m e).1 hrest hstep.1 hstep.2.1 hstep.2.2
    simpa [runEvents, List.foldl_cons] using this

/-- Claim C6: starting from the initialised model, after any sequence of
events the program can deliver (key presses including repeated moves past the
boundaries, ticks, batch-completion messages, resizes) the number of
per-target status records equals the number of registered targets (three),
and the cursor stays within `[0, 2]` — moves past the boundary clamp. -/
theorem statuses_length_and_cursor_clamped (hubArg dr1Arg dr2Arg : String) (evs : List Msg)
    (h : ∀ e ∈ evs, isSystemMsg e = true) :
    (runEvents (initialModel hubArg dr1Arg dr2Arg) evs).clusters.length = 3
    ∧ 0 ≤ (runEvents (initialModel hubArg dr1Arg dr2Arg) evs).cursor
    ∧ (runEvents (initialModel hubArg dr1Arg dr2Arg) evs).cursor ≤ 2 := by
  exact runEvents_inv evs (initialModel hubArg dr1Arg dr2Arg) h rfl (by simp [initialModel])
    (by simp [initialModel])

/-- Concrete event sequence for the claim C6 witness: repeated move-ups past
0, repeated move-downs past the last index, a tick, a batch completion, a
resize and an ignored key. -/
def evsClamp : List Msg :=
  [Msg.key "up", Msg.key "up", Msg.key "k", Msg.key "down", Msg.key "j",
   Msg.key "down", Msg.key "down", Msg.key "down", Msg.tick, Msg.clustersPtr,
   Msg.windowSize 80 24, Msg.key "x"]

/-- Witness for claim C6 on the concrete sequence `evsClamp`. -/
theorem statuses_length_and_cursor_clamped_witness :
    (runEvents (initialModel "h" "d1" "d2") evsClamp).clusters.length = 3
    ∧ 0 ≤ (runEvents (initialModel "h" "d1" "d2") evsClamp).cursor
    ∧ (runEvents (initialModel "h" "d1" "d2") evsClamp).cursor ≤ 2 :=
  statuses_length_and_cursor_clamped "h" "d1" "d2" evsClamp (by decide)

/-- Claim C7: a resize-only event sequence changes only the viewport fields —
every target's health, namespace list and resource-reference list, and the
cursor, are identical before and after. -/
theorem resize_only_viewport (evs : List Msg) :
    ∀ m : model, (∀ e ∈ evs, isResizeMsg e = true) →
      (runEvents m evs).clusters = m.clusters ∧ (runEvents m evs).cursor = m.cursor := by
  induction evs with
  | nil => intro m _; exact ⟨rfl, rfl⟩
  | cons e rest ih =>
    intro m hall
    have he : isResizeMsg e = true := hall e (List.mem_cons_self e rest)
    have hrest : ∀ x ∈ rest, isResizeMsg x = true :=
      fun x hx => hall x (List.mem_cons_of_mem e hx)
    cases e with
    | clustersValue cs => simp [isResizeMsg] at he
    | key s => simp [isResizeMsg] at he
    | tick => simp [isResizeMsg] at he
    | clustersPtr => simp [isResizeMsg] at he
    | windowSize w h =>
      have := ih { m with width := w, height := h } hrest
      simpa [runEvents, List.foldl_cons, model.update] using this

/-- Witness for claim C7: two concrete resizes leave clusters and cursor of a
concrete model byte-identical. -/
theorem resize_only_viewport_witness :
    (runEvents (initialModel "h" "d1" "d2") [Msg.windowSize 100 40, Msg.windowSize 5 5]).clusters
      = (initialModel "h" "d1" "d2").clusters
    ∧ (runEvents (initialModel "h" "d1" "d2") [Msg.windowSize 100 40, Msg.windowSize 5 5]).cursor
      = (initialModel "h" "d1" "d2").cursor :=
  resize_only_viewport [Msg.windowSize 100 40, Msg.windowSize 5 5]
    (initialModel "h" "d1" "d2") (by decide)

/-- Processing only batch-completion messages emits no commands and leaves
the model unchanged. -/
theorem ptr_only_no_commands (evs : List Msg) :
    ∀ m : model, (∀ e ∈ evs, e = Msg.clustersPtr) →
      cmdTrace m evs = [] ∧ runEvents m evs = m := by
  induction evs with
  | nil => intro m _; exact ⟨rfl, rfl⟩
  | cons e rest ih =>
    intro m hall
    have he : e = Msg.clustersPtr := hall e (List.mem_cons_self e rest)
    subst he
    have hrest : ∀ x ∈ rest, x = Msg.clustersPtr :=
      fun x hx => hall x (List.mem_cons_of_mem Msg.clustersPtr hx)
    have := ih m hrest
    simpa [cmdTrace, runEvents, List.foldl_cons, model.update] using this

/-- Claim C8: processing the quit key (either binding) emits only the stop
command — in particular neither a start-poll-batch nor a schedule-tick
command — and leaves the state unchanged; any late-arriving batch-completion
messages processed afterwards are accepted (Update is total and returns
normally), emit no command at all, and leave the state unchanged, so
scheduling is never resurrected.  (New tick or poll commands would require a
tick event, which only the tick command itself reschedules.) -/
theorem quit_stops_scheduling (m : model) (evs : List Msg)
    (h : ∀ e ∈ evs, e = Msg.clustersPtr) :
    (model.update m (Msg.key "q")).2 = [Cmd.quit]
    ∧ (model.update m (Msg.key "ctrl+c")).2 = [Cmd.quit]
    ∧ Cmd.updateClustersDataCmd ∉ (model.update m (Msg.key "q")).2
    ∧ Cmd.tickCmd ∉ (model.update m (Msg.key "q")).2
    ∧ (model.update m (Msg.key "q")).1 = m
    ∧ cmdTrace (model.update m (Msg.key "q")).1 evs = []
    ∧ runEvents (model.update m (Msg.key "q")).1 evs = m := by
  have hq : (model.update m (Msg.key "q")) = (m, [Cmd.quit]) := by
    simp [model.update]
  have hcc : (model.update m (Msg.key "ctrl+c")) = (m, [Cmd.quit]) := by
    simp [model.update]
  have hptr := ptr_only_no_commands evs m h
  refine ⟨by rw [hq], by rw [hcc], by rw [hq]; simp, by rw [hq]; simp,
    by rw [hq], by rw [hq]; exact hptr.1, by rw [hq]; exact hptr.2⟩

/-- Witness for claim C8: concrete model, two late batch messages. -/
theorem quit_stops_scheduling_witness :
    (model.update (initialModel "h" "d1" "d2") (Msg.key "q")).2 = [Cmd.quit]
    ∧ cmdTrace (model.update (initialModel "h" "d1" "d2") (Msg.key "q")).1
        [Msg.clustersPtr, Msg.clustersPtr] = []
    ∧ runEvents (model.update (initialModel "h" "d1" "d2") (Msg.key "q")).1
        [Msg.clustersPtr, Msg.clustersPtr] = initialModel "h" "d1" "d2" := by
  have h := quit_stops_scheduling (initialModel "h" "d1" "d2")
    [Msg.clustersPtr, Msg.clustersPtr] (by decide)
  exact ⟨h.1, h.2.2.2.2.2.1, h.2.2.2.2.2.2⟩

/-- Claim C9: the message the background poll command delivers is the
`*[]clusterInfo` pointer (`updateClustersDataMsg`), which matches no case of
`model.Update`'s type switch (the `case []clusterInfo` arm requires the
dynamic type `[]clusterInfo`): processing it returns the model unchanged with
no command.  The second conjunct shows the `case []clusterInfo` arm — the
wholesale replacement the spec attributes to `BatchArrived` — is present but
is reachable only by a message kind the program never produces; observable
status updates instead happen because `updateClustersData` mutates the shared
slice in place before the message is delivered (see claim C1). -/
theorem batch_message_pointer_noop (m : model) :
    model.update m updateClustersDataMsg = (m, [])
    ∧ ∀ cs, model.update m (Msg.clustersValue cs) = ({ m with clusters := cs }, []) := by
  exact ⟨rfl, fun cs => rfl⟩

/-- A concrete model with cursor 0 for the claim C10 witness. -/
def mViewA : model :=
  { initialModel "h" "d1" "d2" with cursor := 0, width := 80, height := 24 }

/-- The same model with the cursor moved to the last index. -/
def mViewB : model := { mViewA with cursor := 2 }

/-- Claim C10: the rendered frame does not depend on the cursor — two states
equal except for the cursor index render identically, for every layout
library. -/
theorem view_cursor_independent (lib : LayoutLib) (m1 m2 : model)
    (hc : m1.clusters = m2.clusters) (hw : m1.width = m2.width)
    (hh : m1.height = m2.height) :
    model.view lib m1 = model.view lib m2 := by
  unfold model.view
  rw [hc, hw, hh]

/-- Witness for claim C10: concrete states differing only in cursor render
the same frame. -/
theorem view_cursor_independent_witness :
    model.view libSample mViewA = model.view libSample mViewB :=
  view_cursor_independent libSample mViewA mViewB rfl rfl rfl

end Ramenbooth
